import Mathlib

/-
Verification of the d3d12-cube renderer's frame-synchronization and
resource-upload core.

The development shallowly embeds the relevant functions of the repository:

* `helium.gpu_fence` with `bump` / `block` from src/runtime/d3d12_utilities.h;
* the `transition` / `reverse` barrier helpers, in both the asserting
  variant of src/runtime/d3d12_utilities.h and the assertion-free variant of
  src/runtime/main.cpp;
* the staged geometry uploads `helium::schedule_object_upload`
  (src/unnamed/part_005) and `cube::load_geometry` (src/unnamed/part_006),
  as program-order event traces plus a byte-level model of the staging
  buffer contents and the recorded copy regions;
* the index-array construction of the three wavefront-loading iterations
  (src/unnamed/part_004, part_005, part_006);
* `cube::record_commands` and the render loop of `cube::d3d12_renderer`
  (src/unnamed/part_006).

Machine integers are modelled as `Nat` with explicit reduction modulo
`2 ^ 64` (fence counters) or `2 ^ 32` (index elements) where the source
performs unsigned arithmetic that can wrap.
-/

namespace helium

/-- Modulus of the fence counter type `std::uint64_t`. -/
def U64 : Nat := 2 ^ 64

/-- Modulus of the index element type `unsigned int`. -/
def U32 : Nat := 2 ^ 32

/-- CPU-side state of `helium::gpu_fence` (src/runtime/d3d12_utilities.h):
the single 64-bit counter `m_value`.  The `ID3D12Fence` lives on the GPU
side and is modelled separately through the completed value and the stream
of signalled values. -/
structure gpu_fence where
  m_value : Nat
  deriving Repr, DecidableEq

/-- A fresh fence: `CreateFence(initial_value = 0, D3D12_FENCE_FLAG_NONE)`. -/
def gpu_fence.init : gpu_fence := ⟨0⟩

/-- Embedding of `gpu_fence::bump`:
`queue.Signal(m_fence.get(), ++m_value)`.  The pre-increment is 64-bit,
hence the reduction modulo `U64`.  Returns the new state together with the
value enqueued for the GPU-side signal (the caller's ticket). -/
def gpu_fence.bump (f : gpu_fence) : gpu_fence × Nat :=
  (⟨(f.m_value + 1) % U64⟩, (f.m_value + 1) % U64)

/-- The guard threshold `m_value - offset` of `gpu_fence::block`, computed
in unsigned 64-bit arithmetic: the subtraction wraps modulo `2 ^ 64`. -/
def block_threshold (m_value lag : Nat) : Nat :=
  (m_value + (U64 - lag % U64)) % U64

/-- `SetEventOnCompletion(target, event)` followed by
`WaitForSingleObject(event, INFINITE)`: the event fires at the first moment
the fence's completed value is at least `target`.  The head of the list is
the completed value now; the tail is the stream of values the GPU will
signal, in order (a GPU signalling out of order is a non-monotone stream).
The result is the completed value observed when the wait is satisfied;
`none` means the wait is never satisfied. -/
def find_signal (completions : List Nat) (target : Nat) : Option Nat :=
  completions.find? (fun v => decide (target ≤ v))

/-- Embedding of `gpu_fence::block(offset)`
(src/runtime/d3d12_utilities.h lines 81-87): if
`GetCompletedValue() < m_value - offset` (64-bit subtraction), wait until
the completed value reaches `m_value` — note that `SetEventOnCompletion`
is called with `m_value`, not with `m_value - offset`; otherwise return at
once.  The result is the completed value observed when the call returns,
`none` if the wait never completes. -/
def gpu_fence.block (f : gpu_fence) (lag completed : Nat)
    (signals : List Nat) : Option Nat :=
  if completed < block_threshold f.m_value lag then
    find_signal (completed :: signals) f.m_value
  else
    some completed

/-- `n` successive `bump` calls starting from a fresh fence, collecting the
returned tickets in order. -/
def bump_trace : Nat → gpu_fence × List Nat
  | 0 => (gpu_fence.init, [])
  | n + 1 =>
    let p := bump_trace n
    let q := p.1.bump
    (q.1, p.2 ++ [q.2])

/-- The D3D12 resource states this program mentions. -/
inductive resource_state
  | common
  | render_target
  | copy_dest
  | vertex_and_constant_buffer
  | index_buffer
  | generic_read
  | depth_write
  deriving Repr, DecidableEq

/-- `D3D12_RESOURCE_BARRIER_TYPE`: the program only ever builds transition
barriers; the other two kinds exist so that the precondition of `reverse`
is meaningful. -/
inductive barrier_type
  | transition_kind
  | aliasing_kind
  | uav_kind
  deriving Repr, DecidableEq

/-- `D3D12_RESOURCE_BARRIER` restricted to the fields the program writes;
resources are identified by a numeric id standing for the
`ID3D12Resource*`. -/
structure resource_barrier where
  barrier_kind : barrier_type
  resource : Nat
  state_before : resource_state
  state_after : resource_state
  deriving Repr, DecidableEq

/-- Embedding of `helium::transition` from src/runtime/d3d12_utilities.h
(lines 18-27): `Expects(before != after)` guards the construction; a
violated `Expects` is a programmer-error abort, modelled as `none`. -/
def transition (resource : Nat) (before after : resource_state) :
    Option resource_barrier :=
  if before = after then none
  else some ⟨barrier_type.transition_kind, resource, before, after⟩

/-- Embedding of `helium::transition` from src/runtime/main.cpp
(lines 94-102): the same descriptor construction but with no `Expects`
assertion at all. -/
def transition_unchecked (resource : Nat) (before after : resource_state) :
    resource_barrier :=
  ⟨barrier_type.transition_kind, resource, before, after⟩

/-- Embedding of `helium::reverse` (src/runtime/d3d12_utilities.h lines
29-33): `Expects(barrier.Type == TRANSITION)`, then the before/after states
are swapped in place. -/
def reverse (b : resource_barrier) : Option resource_barrier :=
  if b.barrier_kind = barrier_type.transition_kind then
    some ⟨b.barrier_kind, b.resource, b.state_after, b.state_before⟩
  else none

/-- Resource id of the staging (upload) buffer in the upload traces. -/
def staging_buffer_id : Nat := 0

/-- Resource id of the device-local vertex buffer in the upload traces. -/
def vertex_buffer_id : Nat := 1

/-- Resource id of the device-local index buffer in the upload traces. -/
def index_buffer_id : Nat := 2

/-- Program-order events of the staged geometry upload functions. -/
inductive upload_event
  | load_source_geometry
  | create_vertex_buffer (size : Nat)
  | create_index_buffer (size : Nat)
  | create_staging_buffer (size : Nat)
  | map_staging
  | write_staging (off len : Nat)
  | unmap_staging
  | allocator_reset
  | list_reset
  | record_copy (dst dst_off src_off size : Nat)
  | record_barriers (bs : List resource_barrier)
  | list_close
  | execute_lists
  | fence_bump
  | build_views
  | fence_block (lag : Nat)
  | destroy_staging
  | function_return
  deriving Repr, DecidableEq

/-- Events that access the staging buffer's memory: `map`, the `memcpy` /
`std::copy` writes into it, and `unmap`. -/
def is_staging_access : upload_event → Bool
  | upload_event.map_staging => true
  | upload_event.write_staging _ _ => true
  | upload_event.unmap_staging => true
  | _ => false

/-- Operations on the staging buffer in the sense of the specification:
map, copy-into, unmap, destroy. -/
def is_staging_op : upload_event → Bool
  | upload_event.map_staging => true
  | upload_event.write_staging _ _ => true
  | upload_event.unmap_staging => true
  | upload_event.destroy_staging => true
  | _ => false

/-- Recognizes the `fence.block()` event of an upload trace. -/
def is_fence_block : upload_event → Bool
  | upload_event.fence_block _ => true
  | _ => false

/-- Recognizes a recorded `CopyBufferRegion` command. -/
def is_record_copy : upload_event → Bool
  | upload_event.record_copy _ _ _ _ => true
  | _ => false

/-- Recognizes a recorded `ResourceBarrier` submission. -/
def is_record_barriers : upload_event → Bool
  | upload_event.record_barriers _ => true
  | _ => false

/-- Recognizes the `list.Close()` event. -/
def is_list_close : upload_event → Bool
  | upload_event.list_close => true
  | _ => false

/-- Recognizes the `ExecuteCommandLists` event. -/
def is_execute_lists : upload_event → Bool
  | upload_event.execute_lists => true
  | _ => false

/-- Recognizes the `fence.bump(queue)` event. -/
def is_fence_bump : upload_event → Bool
  | upload_event.fence_bump => true
  | _ => false

/-- Embedding of `helium::schedule_object_upload`
(src/unnamed/part_005 lines 220-336) as its program-order event trace, for
a mesh of `nv` vertices (12 bytes each, `sizeof(vector3)`) and `ni`
indices (4 bytes each, `sizeof(unsigned int)`): create the two
device-local buffers in copy-destination state, create the staging buffer
sized for both payloads, map it, copy the vertex bytes to offset 0 and the
index bytes to offset `vertex_buffer_description.Width`, unmap, reset the
list, record the two `CopyBufferRegion` commands, record the two
transition barriers (built by the part_005 `transition`, which has no
assertion), close, execute, bump the fence, build the buffer views, block
on the fence, and return; the `winrt::com_ptr` of the staging buffer is
destroyed on scope exit, after the block and before control leaves the
function. -/
def schedule_object_upload_trace (nv ni : Nat) : List upload_event :=
  [upload_event.load_source_geometry,
   upload_event.create_vertex_buffer (12 * nv),
   upload_event.create_index_buffer (4 * ni),
   upload_event.create_staging_buffer (12 * nv + 4 * ni),
   upload_event.map_staging,
   upload_event.write_staging 0 (12 * nv),
   upload_event.write_staging (12 * nv) (4 * ni),
   upload_event.unmap_staging,
   upload_event.list_reset,
   upload_event.record_copy vertex_buffer_id 0 0 (12 * nv),
   upload_event.record_copy index_buffer_id 0 (12 * nv) (4 * ni),
   upload_event.record_barriers
     [transition_unchecked vertex_buffer_id resource_state.copy_dest
        resource_state.vertex_and_constant_buffer,
      transition_unchecked index_buffer_id resource_state.copy_dest
        resource_state.index_buffer],
   upload_event.list_close,
   upload_event.execute_lists,
   upload_event.fence_bump,
   upload_event.build_views,
   upload_event.fence_block 0,
   upload_event.destroy_staging,
   upload_event.function_return]

/-- `memcpy(mem + off, src, src.length)` on a byte array. -/
def write_bytes (mem : List Nat) (off : Nat) (src : List Nat) : List Nat :=
  mem.take off ++ src ++ mem.drop (off + src.length)

/-- The bytes `[off, off + len)` of a byte array. -/
def read_bytes (mem : List Nat) (off len : Nat) : List Nat :=
  (mem.drop off).take len

/-- Contents of `schedule_object_upload`'s staging buffer after the two
`std::copy` calls (src/unnamed/part_005 lines 292-298): the buffer is
sized `vertex_buffer_description.Width + index_buffer_description.Width`;
the vertex bytes go to offset 0 and the index bytes to offset
`vertex_buffer_description.Width`. -/
def schedule_object_upload_staging (vbytes ibytes : List Nat) : List Nat :=
  write_bytes
    (write_bytes (List.replicate (vbytes.length + ibytes.length) 0) 0 vbytes)
    vbytes.length ibytes

/-- Unsigned 32-bit subtraction of 1, as in `face.indices.at(j) - 1` on an
`unsigned int`. -/
def u32_sub_one (x : Nat) : Nat := (x + (U32 - 1)) % U32

/-- `helium::wavefront_vertex` (src/runtime/wavefront_object_loader.cpp):
1-based position / normal / texture indices parsed from an `f` record. -/
structure wavefront_vertex where
  position : Nat
  normal : Nat
  uvw : Nat
  deriving Repr, DecidableEq

/-- `helium::triangle`: the three corner vertices of a face. -/
structure triangle where
  v0 : wavefront_vertex
  v1 : wavefront_vertex
  v2 : wavefront_vertex
  deriving Repr, DecidableEq

/-- Embedding of the index-array construction in
`helium::load_wavefront_vertices` (src/unnamed/part_005 lines 203-215):
for each face, for each corner vertex in order, write
`vertex.position - 1` (unsigned 32-bit subtraction). -/
def load_wavefront_vertices_indices (faces : List triangle) : List Nat :=
  (faces.map (fun f =>
    [u32_sub_one f.v0.position, u32_sub_one f.v1.position,
     u32_sub_one f.v2.position])).flatten

/-- Embedding of the index-array construction in the earlier
`helium::schedule_object_upload` (src/unnamed/part_004 lines 242-248):
the 1-based `vertex.position` is written with no conversion. -/
def schedule_object_upload_indices_p4 (faces : List triangle) : List Nat :=
  (faces.map (fun f =>
    [f.v0.position, f.v1.position, f.v2.position])).flatten

end helium

namespace cube

open helium

/-- `cube::face_descriptor` (src/wavefront_loader.h): the three 1-based
vertex indices of a face. -/
structure face_descriptor where
  i0 : Nat
  i1 : Nat
  i2 : Nat
  deriving Repr, DecidableEq

/-- Embedding of the index conversion loop in `cube::load_geometry`
(src/unnamed/part_006 lines 303-308):
`indices.at(i * 3 + j) = face.indices.at(j) - 1` with unsigned 32-bit
subtraction. -/
def load_geometry_indices (faces : List face_descriptor) : List Nat :=
  (faces.map (fun f =>
    [u32_sub_one f.i0, u32_sub_one f.i1, u32_sub_one f.i2])).flatten

/-- Embedding of `cube::load_geometry` (src/unnamed/part_006 lines
292-345) as its program-order event trace for `nv` vertices and `ni`
indices: load the wavefront and convert its indices, create the staging
buffer sized `indices_bytes + vertices_bytes`, create the vertex and index
buffers, map the staging buffer, `memcpy` the index bytes to offset 0 and
the vertex bytes to offset `indices.size() * sizeof(unsigned int)`, unmap,
reset the allocator and the list, record the copy into the index buffer
(source offset 0) and the copy into the vertex buffer (source offset
`indices' byte size`), close — recording no resource barriers (the source
holds only a TODO comment about resource states there — execute, bump the
fence, block on it, destroy the staging buffer on scope exit, return. -/
def load_geometry_trace (nv ni : Nat) : List upload_event :=
  [upload_event.load_source_geometry,
   upload_event.create_staging_buffer (4 * ni + 12 * nv),
   upload_event.create_vertex_buffer (12 * nv),
   upload_event.create_index_buffer (4 * ni),
   upload_event.map_staging,
   upload_event.write_staging 0 (4 * ni),
   upload_event.write_staging (4 * ni) (12 * nv),
   upload_event.unmap_staging,
   upload_event.allocator_reset,
   upload_event.list_reset,
   upload_event.record_copy index_buffer_id 0 0 (4 * ni),
   upload_event.record_copy vertex_buffer_id 0 (4 * ni) (12 * nv),
   upload_event.list_close,
   upload_event.execute_lists,
   upload_event.fence_bump,
   upload_event.fence_block 0,
   upload_event.destroy_staging,
   upload_event.function_return]

/-- Contents of `load_geometry`'s staging buffer after the two `memcpy`
calls (src/unnamed/part_006 lines 316-321): the buffer is sized
`indices.size() * sizeof(unsigned int) + vertices.size() * sizeof(vector3)`;
the index bytes go to offset 0 and the vertex bytes to offset equal to the
index payload's byte size. -/
def load_geometry_staging (ibytes vbytes : List Nat) : List Nat :=
  write_bytes
    (write_bytes (List.replicate (ibytes.length + vbytes.length) 0) 0 ibytes)
    ibytes.length vbytes

/-- Commands recorded into the `ID3D12GraphicsCommandList` by
`cube::record_commands`; draw parameters irrelevant to barrier pairing are
kept as opaque markers. -/
inductive gfx_command
  | set_root_signature
  | set_root_constants
  | set_topology
  | set_vertex_buffers
  | set_index_buffer
  | set_render_targets
  | set_scissor_rects
  | set_viewports
  | submit_barriers (bs : List resource_barrier)
  | clear_depth_stencil_view
  | clear_render_target_view
  | draw_indexed_instanced (index_count : Nat)
  deriving Repr, DecidableEq

/-- A closed command list: the commands in recording order plus the
`Close()` flag. -/
structure recorded_list where
  commands : List gfx_command
  closed : Bool
  deriving Repr, DecidableEq

/-- Resource id of the swap-chain back buffer bound in the pass. -/
def backbuffer_id : Nat := 0

/-- Modelled from the spec: the `barrier(list, span)` helper called by
`record_commands` (src/unnamed/part_006 lines 393 and 401) is not among
the provided sources; per the render-pass protocol (spec §4.2) and the
sibling iterations' `list.ResourceBarrier(narrow(barriers.size()),
barriers.data())` calls, it submits the barrier array to the command
list. -/
def submit_barrier_span (cmds : List gfx_command)
    (bs : List resource_barrier) : List gfx_command :=
  cmds ++ [gfx_command.submit_barriers bs]

/-- Embedding of `cube::record_commands` (src/unnamed/part_006 lines
374-404): the command sequence recorded between `list->Reset` and
`list->Close`.  The entry barrier is built by `helium::transition`
(COMMON to RENDER_TARGET on the back buffer) and the exit barrier is the
in-place `helium::reverse` of the stored barrier; `none` would signal a
violated `Expects`. -/
def record_commands (index_count : Nat) : Option recorded_list := do
  let entry_barrier ← helium.transition backbuffer_id resource_state.common
    resource_state.render_target
  let exit_barrier ← helium.reverse entry_barrier
  let opening : List gfx_command :=
    [gfx_command.set_root_signature, gfx_command.set_root_constants,
     gfx_command.set_topology, gfx_command.set_vertex_buffers,
     gfx_command.set_index_buffer, gfx_command.set_render_targets,
     gfx_command.set_scissor_rects, gfx_command.set_viewports]
  let body := submit_barrier_span opening [entry_barrier] ++
    [gfx_command.clear_depth_stencil_view,
     gfx_command.clear_render_target_view,
     gfx_command.draw_indexed_instanced index_count]
  pure ⟨submit_barrier_span body [exit_barrier], true⟩

/-- Fold a submitted barrier array over the declared state of resource
`r`. -/
def apply_barriers (r : Nat) (s : resource_state)
    (bs : List resource_barrier) : resource_state :=
  bs.foldl (fun st b => if b.resource = r then b.state_after else st) s

/-- The declared state of resource `r` after a recorded command sequence,
starting from state `s`. -/
def declared_state (r : Nat) (s : resource_state) :
    List gfx_command → resource_state
  | [] => s
  | gfx_command.submit_barriers bs :: rest =>
    declared_state r (apply_barriers r s bs) rest
  | _ :: rest => declared_state r s rest

/-- How many transition barriers moving resource `r` from state `a` to
state `b` a command sequence submits. -/
def transition_count (r : Nat) (a b : resource_state)
    (cmds : List gfx_command) : Nat :=
  (cmds.map (fun c =>
    match c with
    | gfx_command.submit_barriers bs =>
      (bs.filter (fun x =>
        decide (x.resource = r ∧ x.state_before = a ∧ x.state_after = b))).length
    | _ => 0)).sum

/-- Per-iteration events of `d3d12_renderer::render`
(src/unnamed/part_006 lines 448-461), in program order. -/
inductive render_event
  | fence_block_lag_one
  | allocator_reset
  | record
  | execute_lists
  | present
  | fence_bump
  deriving Repr, DecidableEq

/-- The program-order event list of one `render()` call:
`m_fence.block(1)`, `frame.allocator->Reset()`, `record_commands`,
`execute`, `Present`, `m_fence.bump`. -/
def render_iteration_events : List render_event :=
  [render_event.fence_block_lag_one, render_event.allocator_reset,
   render_event.record, render_event.execute_lists, render_event.present,
   render_event.fence_bump]

/-- Abstract state of the render loop: the fence counter `m_value`, the
lower bound on the GPU-completed fence value that the CPU has established
through fence waits, the ticket of the last submission recorded through
each of the two frame-resource allocators, and the swap-chain back-buffer
index. -/
structure loop_state where
  fence_value : Nat
  completed_lb : Nat
  ticket0 : Option Nat
  ticket1 : Option Nat
  back_index : Nat
  deriving Repr, DecidableEq

/-- State right after the `d3d12_renderer` constructor: `load_geometry`
recorded through frame-resource entry 0's allocator, submitted with ticket
1 (`fence.bump`), and its `fence.block()` established a completed value of
at least 1.  No `Present` has happened yet, so the back-buffer index is
0. -/
def init_state : loop_state := ⟨1, 1, some 1, none, 0⟩

/-- Embedding of one iteration of `d3d12_renderer::render`
(src/unnamed/part_006 lines 448-461): `m_fence.block(1)` — which on
return guarantees a completed value of at least
`block_threshold m_value 1` — then `GetCurrentBackBufferIndex`,
`frame.allocator->Reset()`, `record_commands`, `execute`,
`Present(1, 0)` and `m_fence.bump(queue)` (the submission's ticket is the
incremented counter).  Modelled from the spec: the back-buffer index is
owned by the presentation surface and cycles through `[0, N)` with N = 2
(spec §3, SwapImage), so `Present` advances it modulo 2. -/
def render_step (s : loop_state) : loop_state :=
  let lb := max s.completed_lb (block_threshold s.fence_value 1)
  let slot := s.back_index % 2
  let ticket := (s.fence_value + 1) % U64
  ⟨ticket, lb,
   if slot = 0 then some ticket else s.ticket0,
   if slot = 1 then some ticket else s.ticket1,
   (s.back_index + 1) % 2⟩

/-- The loop state at the start of iteration `n` (0-based), starting from
the post-constructor state. -/
def run : Nat → loop_state
  | 0 => init_state
  | n + 1 => render_step (run n)

/-- The ticket of the last submission recorded through the allocator of
slot `i`. -/
def ticket_of (s : loop_state) (i : Nat) : Option Nat :=
  if i % 2 = 0 then s.ticket0 else s.ticket1

/-- The ticket of the previous submission recorded through the allocator
about to be reused (the one of the current back-buffer index). -/
def slot_ticket (s : loop_state) : Option Nat :=
  ticket_of s s.back_index

/-- The lower bound on the completed fence value in force at the
`allocator->Reset()` call of an iteration starting in state `s`, i.e.
after that iteration's `m_fence.block(1)` has returned. -/
def confirmed_lb (s : loop_state) : Nat :=
  max s.completed_lb (block_threshold s.fence_value 1)

end cube

/-
Theorems.  Helper lemmas first, then one theorem per claim (with its
counterexample and witness where applicable).
-/

/-- Numeric value of the 64-bit modulus. -/
theorem U64_eq : helium.U64 = 18446744073709551616 := by
  norm_num [helium.U64]

/-- Numeric value of the 32-bit modulus. -/
theorem U32_eq : helium.U32 = 4294967296 := by
  norm_num [helium.U32]

/-- A satisfied wait observed a completed value at least as large as its
target, no matter in which order values appeared in the stream. -/
theorem find_signal_le {l : List Nat} {t c : Nat}
    (h : helium.find_signal l t = some c) : t ≤ c := by
  have := List.find?_some h
  simpa using this

/-- Without wraparound, the guard threshold of `block` is the plain
difference `m_value - lag`. -/
theorem block_threshold_of_le (v lag : Nat) (hlag : lag ≤ v)
    (hv : v < helium.U64) : helium.block_threshold v lag = v - lag := by
  unfold helium.block_threshold
  simp only [U64_eq] at hv ⊢
  omega

/-- The tickets returned by `n` bumps of a fresh fence are `1, 2, …, n`
and the counter ends at `n`, as long as the 64-bit counter does not
wrap. -/
theorem bump_trace_eq (n : Nat) (hn : n < helium.U64) :
    helium.bump_trace n = (⟨n⟩, List.range' 1 n) := by
  induction n with
  | zero => rfl
  | succ m ih =>
    have hm : m < helium.U64 := Nat.lt_of_succ_lt hn
    have hmod : (m + 1) % helium.U64 = m + 1 := Nat.mod_eq_of_lt hn
    simp [helium.bump_trace, ih hm, helium.gpu_fence.bump, hmod,
      List.range'_concat, Nat.add_comm]

/-- Conversion of a 1-based index: for a nonzero 32-bit value the unsigned
subtraction `x - 1` is the plain predecessor. -/
theorem u32_sub_one_eq_pred (x : Nat) (h1 : 1 ≤ x) (hx : x < helium.U32) :
    helium.u32_sub_one x = x - 1 := by
  unfold helium.u32_sub_one
  simp only [U32_eq] at hx ⊢
  omega

/-- Claim C7: every `gpu_fence::bump` increments the 64-bit counter by
exactly 1 and returns the new value as the caller's ticket; over a
sequence of `n` bumps of a fresh fence the returned tickets are exactly
`1, 2, …, n` (each one larger than the previous by 1) and the counter
never decreases. -/
theorem fence_bump_monotonic_tickets (n : Nat) (hn : n < helium.U64) :
    (helium.bump_trace n).1.m_value = n ∧
    (helium.bump_trace n).2 = List.range' 1 n ∧
    (∀ k, k ≤ n →
      (helium.bump_trace k).1.m_value ≤ (helium.bump_trace n).1.m_value) ∧
    (∀ f : helium.gpu_fence, f.m_value + 1 < helium.U64 →
      f.bump.1.m_value = f.m_value + 1 ∧ f.bump.2 = f.m_value + 1) := by
  refine ⟨?_, ?_, ?_, ?_⟩
  · rw [bump_trace_eq n hn]
  · rw [bump_trace_eq n hn]
  · intro k hk
    rw [bump_trace_eq n hn, bump_trace_eq k (lt_of_le_of_lt hk hn)]
    exact hk
  · intro f hf
    have hmod : (f.m_value + 1) % helium.U64 = f.m_value + 1 :=
      Nat.mod_eq_of_lt hf
    exact ⟨by simp [helium.gpu_fence.bump, hmod],
      by simp [helium.gpu_fence.bump, hmod]⟩

/-- Claim C7 witness: three bumps of a fresh fence return tickets
`[1, 2, 3]` and leave the counter at 3. -/
theorem fence_bump_monotonic_tickets_witness :
    3 < helium.U64 ∧ (helium.bump_trace 3).1.m_value = 3 ∧
    (helium.bump_trace 3).2 = List.range' 1 3 :=
  have h3 : 3 < helium.U64 := by rw [U64_eq]; omega
  ⟨h3, (fence_bump_monotonic_tickets 3 h3).1,
    (fence_bump_monotonic_tickets 3 h3).2.1⟩

/-- Claim C2 (amended): with `lag ≤ current_counter` (no wraparound), the
guard threshold of `block(lag)` is `current_counter - lag`; if the
completed value already reaches the threshold the call returns at once
without touching the OS wait primitive, and otherwise it blocks on the OS
event armed at `current_counter` itself (the full counter, not
`current_counter - lag`); in every case a returning call has observed a
completed value of at least `current_counter - lag`, even when the GPU
signals values out of order. -/
theorem block_return_guarantee (v lag completed : Nat) (signals : List Nat)
    (hlag : lag ≤ v) (hv : v < helium.U64) :
    helium.block_threshold v lag = v - lag ∧
    (v - lag ≤ completed →
      helium.gpu_fence.block ⟨v⟩ lag completed signals = some completed) ∧
    (completed < v - lag →
      helium.gpu_fence.block ⟨v⟩ lag completed signals =
        helium.find_signal (completed :: signals) v) ∧
    (∀ c, helium.gpu_fence.block ⟨v⟩ lag completed signals = some c →
      v - lag ≤ c) := by
  have ht := block_threshold_of_le v lag hlag hv
  refine ⟨ht, ?_, ?_, ?_⟩
  · intro hc
    simp [helium.gpu_fence.block, ht, Nat.not_lt.mpr hc]
  · intro hc
    simp [helium.gpu_fence.block, ht, hc]
  · intro c hc
    unfold helium.gpu_fence.block at hc
    rw [ht] at hc
    by_cases hlt : completed < v - lag
    · rw [if_pos hlt] at hc
      exact le_trans (Nat.sub_le v lag) (find_signal_le hc)
    · rw [if_neg hlt] at hc
      cases hc
      exact Nat.not_lt.mp hlt

/-- Claim C2 counterexample: take `current_counter = 5`, `lag = 1`, a
completed value of 3 and a GPU that then signals 4.  The last-signaled
value reaches `current_counter - lag = 4`, so the claim says the blocked
call is released; but the wait was armed at `SetEventOnCompletion(5)`, so
the call is never satisfied by that stream (`none`). -/
theorem block_early_wakeup_counterexample :
    helium.block_threshold 5 1 = 4 ∧ (3 : Nat) < 4 ∧
    helium.find_signal [4] 4 = some 4 ∧
    helium.gpu_fence.block ⟨5⟩ 1 3 [4] = none := by
  have ht : helium.block_threshold 5 1 = 4 := by
    have := block_threshold_of_le 5 1 (by omega)
      (by rw [U64_eq]; omega)
    simpa using this
  refine ⟨ht, by omega, by decide, ?_⟩
  simp [helium.gpu_fence.block, ht, helium.find_signal]

/-- Claim C2 witness: a concrete instantiation of the amended theorem at
`current_counter = 5`, `lag = 2`, completed value 1 and signal stream
`[9]`. -/
theorem block_return_guarantee_witness :
    2 ≤ 5 ∧ 5 < helium.U64 ∧
    (helium.block_threshold 5 2 = 5 - 2 ∧
     (5 - 2 ≤ 1 →
       helium.gpu_fence.block ⟨5⟩ 2 1 [9] = some 1) ∧
     ((1 : Nat) < 5 - 2 →
       helium.gpu_fence.block ⟨5⟩ 2 1 [9] =
         helium.find_signal [1, 9] 5) ∧
     (∀ c, helium.gpu_fence.block ⟨5⟩ 2 1 [9] = some c → 5 - 2 ≤ c)) :=
  have h5 : 5 < helium.U64 := by rw [U64_eq]; omega
  ⟨by omega, h5, block_return_guarantee 5 2 1 [9] (by omega) h5⟩

/-- Claim C10: the guard threshold of `block` is computed in unsigned
64-bit arithmetic.  Whenever `lag` exceeds the current counter the
subtraction wraps modulo `2 ^ 64` to `counter + (2 ^ 64 - lag)`, a value
strictly above any completed value the GPU can have signalled (at most the
counter), so the guard is taken and the call enters the wait path with the
event armed at the current counter value; for `lag ≤ counter` no
wraparound occurs and the threshold is the plain difference. -/
theorem block_threshold_wraparound (c lag completed : Nat)
    (signals : List Nat) (hc : c < helium.U64) (hlag : lag < helium.U64)
    (hcomp : completed ≤ c) :
    (lag ≤ c → helium.block_threshold c lag = c - lag) ∧
    (c < lag →
      helium.block_threshold c lag = c + (helium.U64 - lag) ∧
      completed < helium.block_threshold c lag ∧
      helium.gpu_fence.block ⟨c⟩ lag completed signals =
        helium.find_signal (completed :: signals) c) := by
  refine ⟨fun hle => block_threshold_of_le c lag hle hc, fun hgt => ?_⟩
  have ht : helium.block_threshold c lag = c + (helium.U64 - lag) := by
    unfold helium.block_threshold
    simp only [U64_eq] at hc hlag ⊢
    omega
  have hlt : completed < helium.block_threshold c lag := by
    rw [ht]
    simp only [U64_eq] at hlag ⊢
    omega
  exact ⟨ht, hlt, by simp [helium.gpu_fence.block, hlt]⟩

/-- Claim C10 witness: `block(1)` on a fresh fence (`counter = 0`,
completed value 0): the threshold wraps to `2 ^ 64 - 1`, the guard is
taken, and the wait — armed at the already-signalled counter value 0 —
is satisfied immediately. -/
theorem block_threshold_wraparound_witness :
    0 < helium.U64 ∧ 1 < helium.U64 ∧ (0 : Nat) ≤ 0 ∧
    (helium.block_threshold 0 1 = 0 + (helium.U64 - 1) ∧
     (0 : Nat) < helium.block_threshold 0 1 ∧
     helium.gpu_fence.block ⟨0⟩ 1 0 [] = helium.find_signal [0] 0) ∧
    helium.find_signal [0] 0 = some 0 :=
  have h0 : 0 < helium.U64 := by rw [U64_eq]; omega
  have h1 : 1 < helium.U64 := by rw [U64_eq]; omega
  ⟨h0, h1, le_refl 0,
    (block_threshold_wraparound 0 1 0 [] h0 h1 (le_refl 0)).2 (by omega),
    by decide⟩

/-- Claim C9 (amended): the `transition` of src/runtime/d3d12_utilities.h
enforces `before != after` as an `Expects` assertion — a call with equal
states aborts — and for distinct states builds exactly the
transition-kind descriptor carrying that resource and state pair; the
`transition` of src/runtime/main.cpp builds the same descriptor but has no
assertion, so a call with equal states returns a no-op transition barrier
normally. -/
theorem transition_assertion_and_descriptor (r : Nat)
    (a b : helium.resource_state) (hab : a ≠ b) :
    helium.transition r a a = none ∧
    helium.transition r a b =
      some ⟨helium.barrier_type.transition_kind, r, a, b⟩ ∧
    helium.transition_unchecked r a b =
      ⟨helium.barrier_type.transition_kind, r, a, b⟩ ∧
    helium.transition_unchecked r a a =
      ⟨helium.barrier_type.transition_kind, r, a, a⟩ := by
  refine ⟨?_, ?_, rfl, rfl⟩ <;> simp [helium.transition, hab]

/-- Claim C9 counterexample: the `transition` of src/runtime/main.cpp
(lines 94-102, cited by the claim) called with `before == after` fires no
assertion: it returns the no-op descriptor normally, while the
d3d12_utilities.h variant aborts on the same input. -/
theorem main_transition_no_assertion_counterexample :
    helium.transition_unchecked 0 helium.resource_state.common
      helium.resource_state.common =
      ⟨helium.barrier_type.transition_kind, 0, helium.resource_state.common,
       helium.resource_state.common⟩ ∧
    helium.transition 0 helium.resource_state.common
      helium.resource_state.common = none := by
  exact ⟨rfl, rfl⟩

/-- Claim C9 witness: the amended theorem instantiated at resource 3 with
the COMMON / RENDER_TARGET state pair. -/
theorem transition_assertion_and_descriptor_witness :
    helium.resource_state.common ≠ helium.resource_state.render_target ∧
    (helium.transition 3 helium.resource_state.common
       helium.resource_state.common = none ∧
     helium.transition 3 helium.resource_state.common
       helium.resource_state.render_target =
       some ⟨helium.barrier_type.transition_kind, 3,
         helium.resource_state.common, helium.resource_state.render_target⟩ ∧
     helium.transition_unchecked 3 helium.resource_state.common
       helium.resource_state.render_target =
       ⟨helium.barrier_type.transition_kind, 3, helium.resource_state.common,
        helium.resource_state.render_target⟩ ∧
     helium.transition_unchecked 3 helium.resource_state.common
       helium.resource_state.common =
       ⟨helium.barrier_type.transition_kind, 3, helium.resource_state.common,
        helium.resource_state.common⟩) :=
  ⟨by decide, transition_assertion_and_descriptor 3 _ _ (by decide)⟩

/-- Claim C8: at the failing input — a face whose source text carries the
1-based corner indices (1, 2, 3) — the earlier upload iteration
`schedule_object_upload` of src/unnamed/part_004 hands the index array
`[1, 2, 3]` to the upload pipeline with no 1-based-to-0-based conversion,
while `load_wavefront_vertices` (part_005) and `load_geometry` (part_006)
both produce the converted `[0, 1, 2]`. -/
theorem part4_indices_unconverted :
    helium.schedule_object_upload_indices_p4
      [⟨⟨1, 0, 0⟩, ⟨2, 0, 0⟩, ⟨3, 0, 0⟩⟩] = [1, 2, 3] ∧
    helium.load_wavefront_vertices_indices
      [⟨⟨1, 0, 0⟩, ⟨2, 0, 0⟩, ⟨3, 0, 0⟩⟩] = [0, 1, 2] ∧
    cube.load_geometry_indices [⟨1, 2, 3⟩] = [0, 1, 2] := by
  refine ⟨rfl, ?_, ?_⟩ <;>
    simp [helium.load_wavefront_vertices_indices, cube.load_geometry_indices,
      helium.u32_sub_one, U32_eq]

/-- The converged loaders convert every face's 1-based indices to 0-based:
general form of the conversion performed by `load_geometry`
(src/unnamed/part_006). -/
theorem load_geometry_indices_converts (faces : List cube.face_descriptor)
    (h : ∀ f ∈ faces, 1 ≤ f.i0 ∧ f.i0 < helium.U32 ∧ 1 ≤ f.i1 ∧
      f.i1 < helium.U32 ∧ 1 ≤ f.i2 ∧ f.i2 < helium.U32) :
    cube.load_geometry_indices faces =
      (faces.map (fun f => [f.i0 - 1, f.i1 - 1, f.i2 - 1])).flatten := by
  induction faces with
  | nil => simp [cube.load_geometry_indices]
  | cons f rest ih =>
    have hf := h f (List.mem_cons_self f rest)
    have hrest := ih (fun g hg => h g (List.mem_cons_of_mem f hg))
    simp only [cube.load_geometry_indices, List.map_cons, List.flatten_cons]
      at hrest ⊢
    rw [u32_sub_one_eq_pred f.i0 hf.1 hf.2.1,
      u32_sub_one_eq_pred f.i1 hf.2.2.1 hf.2.2.2.1,
      u32_sub_one_eq_pred f.i2 hf.2.2.2.2.1 hf.2.2.2.2.2, hrest]

/-- Filling a zeroed buffer of exactly the right size with one payload at
offset 0 and the other immediately after yields the concatenation of the
two payloads, with no padding. -/
theorem staged_concat (a b : List Nat) :
    helium.write_bytes
      (helium.write_bytes (List.replicate (a.length + b.length) 0) 0 a)
      a.length b = a ++ b := by
  have h1 : helium.write_bytes (List.replicate (a.length + b.length) 0) 0 a
      = a ++ List.replicate b.length 0 := by
    unfold helium.write_bytes
    simp [List.drop_replicate]
  rw [h1]
  unfold helium.write_bytes
  rw [List.take_left]
  have h2 : (a ++ List.replicate b.length (0 : Nat)).drop
      (a.length + b.length) = [] := by
    apply List.drop_eq_nil_of_le
    simp
  rw [h2]
  simp

/-- Reading `a.length` bytes at offset 0 of `a ++ b` yields `a`. -/
theorem read_bytes_first (a b : List Nat) :
    helium.read_bytes (a ++ b) 0 a.length = a := by
  unfold helium.read_bytes
  simp [List.take_left]

/-- Reading `b.length` bytes at offset `a.length` of `a ++ b` yields
`b`. -/
theorem read_bytes_second (a b : List Nat) :
    helium.read_bytes (a ++ b) a.length b.length = b := by
  unfold helium.read_bytes
  rw [List.drop_left]
  simp

/-- Claim C5 (amended): in both staged uploads the staging buffer is sized
to exactly the vertex payload plus the index payload and is filled
contiguously with no padding, and the recorded copy commands read from
exactly the byte offsets and sizes at which the payloads were written.  In
`schedule_object_upload` (src/unnamed/part_005) the vertex bytes come
first at offset 0, so the staged region is
`concat(vertex_bytes, index_bytes)`; in `load_geometry`
(src/unnamed/part_006) the index bytes come first at offset 0, so the
staged region is `concat(index_bytes, vertex_bytes)`. -/
theorem staging_layout_contiguous_exact_offsets (nv ni : Nat)
    (vbytes ibytes : List Nat) (hvb : vbytes.length = 12 * nv)
    (hib : ibytes.length = 4 * ni) :
    helium.schedule_object_upload_staging vbytes ibytes =
      vbytes ++ ibytes ∧
    (helium.schedule_object_upload_staging vbytes ibytes).length =
      vbytes.length + ibytes.length ∧
    helium.read_bytes (vbytes ++ ibytes) 0 vbytes.length = vbytes ∧
    helium.read_bytes (vbytes ++ ibytes) vbytes.length ibytes.length =
      ibytes ∧
    (helium.schedule_object_upload_trace nv ni).filter
      helium.is_record_copy =
      [helium.upload_event.record_copy helium.vertex_buffer_id 0 0
        vbytes.length,
       helium.upload_event.record_copy helium.index_buffer_id 0
        vbytes.length ibytes.length] ∧
    cube.load_geometry_staging ibytes vbytes = ibytes ++ vbytes ∧
    (cube.load_geometry_staging ibytes vbytes).length =
      ibytes.length + vbytes.length ∧
    helium.read_bytes (ibytes ++ vbytes) 0 ibytes.length = ibytes ∧
    helium.read_bytes (ibytes ++ vbytes) ibytes.length vbytes.length =
      vbytes ∧
    (cube.load_geometry_trace nv ni).filter helium.is_record_copy =
      [helium.upload_event.record_copy helium.index_buffer_id 0 0
        ibytes.length,
       helium.upload_event.record_copy helium.vertex_buffer_id 0
        ibytes.length vbytes.length] := by
  have hs1 : helium.schedule_object_upload_staging vbytes ibytes =
      vbytes ++ ibytes := staged_concat vbytes ibytes
  have hs2 : cube.load_geometry_staging ibytes vbytes =
      ibytes ++ vbytes := staged_concat ibytes vbytes
  refine ⟨hs1, ?_, read_bytes_first vbytes ibytes,
    read_bytes_second vbytes ibytes, ?_, hs2, ?_,
    read_bytes_first ibytes vbytes, read_bytes_second ibytes vbytes, ?_⟩
  · rw [hs1]; simp
  · rw [hvb, hib]; rfl
  · rw [hs2]; simp
  · rw [hvb, hib]; rfl

/-- Claim C5 counterexample: a cube-sized payload (1 vertex of 12 bytes
filled with 7, 3 indices of 4 bytes filled with 9): the staging region
built by `load_geometry` is `concat(index_bytes, vertex_bytes)` and
differs from the `concat(vertex_bytes, index_bytes)` the claim
prescribes. -/
theorem load_geometry_staging_order_counterexample :
    cube.load_geometry_staging (List.replicate 12 9) (List.replicate 12 7)
      = List.replicate 12 9 ++ List.replicate 12 7 ∧
    cube.load_geometry_staging (List.replicate 12 9) (List.replicate 12 7)
      ≠ List.replicate 12 7 ++ List.replicate 12 9 := by decide

/-- Claim C5 witness: the amended theorem instantiated with one vertex
(12 bytes of 7) and three indices (12 bytes of 9). -/
theorem staging_layout_contiguous_exact_offsets_witness :
    (List.replicate 12 (7 : Nat)).length = 12 * 1 ∧
    (List.replicate 12 (9 : Nat)).length = 4 * 3 ∧
    helium.schedule_object_upload_staging (List.replicate 12 7)
      (List.replicate 12 9) =
      List.replicate 12 7 ++ List.replicate 12 9 ∧
    (cube.load_geometry_trace 1 3).filter helium.is_record_copy =
      [helium.upload_event.record_copy helium.index_buffer_id 0 0
        (List.replicate 12 (9 : Nat)).length,
       helium.upload_event.record_copy helium.vertex_buffer_id 0
        (List.replicate 12 (9 : Nat)).length
        (List.replicate 12 (7 : Nat)).length] := by
  have h := staging_layout_contiguous_exact_offsets 1 3
    (List.replicate 12 7) (List.replicate 12 9) (by decide) (by decide)
  obtain ⟨a1, _, _, _, _, _, _, _, _, a10⟩ := h
  exact ⟨by decide, by decide, a1, a10⟩

/-- Claim C3 (amended): both staged uploads close, submit and bump before
the confirming `fence.block()`, which precedes the function's return;
every map, copy-into, and unmap of the staging buffer happens strictly
before the block; the only staging-buffer operation after the block
returns is the buffer's destruction on scope exit, which the completed
wait makes safe. -/
theorem upload_block_before_return (nv ni : Nat) :
    ((cube.load_geometry_trace nv ni).findIdx helium.is_list_close <
      (cube.load_geometry_trace nv ni).findIdx helium.is_fence_block) ∧
    ((cube.load_geometry_trace nv ni).findIdx helium.is_execute_lists <
      (cube.load_geometry_trace nv ni).findIdx helium.is_fence_block) ∧
    ((cube.load_geometry_trace nv ni).findIdx helium.is_fence_bump <
      (cube.load_geometry_trace nv ni).findIdx helium.is_fence_block) ∧
    ((cube.load_geometry_trace nv ni).filter helium.is_staging_access =
      ((cube.load_geometry_trace nv ni).take
        ((cube.load_geometry_trace nv ni).findIdx
          helium.is_fence_block)).filter helium.is_staging_access) ∧
    ((cube.load_geometry_trace nv ni).drop
      ((cube.load_geometry_trace nv ni).findIdx helium.is_fence_block + 1)
      = [helium.upload_event.destroy_staging,
         helium.upload_event.function_return]) ∧
    ((helium.schedule_object_upload_trace nv ni).findIdx
        helium.is_list_close <
      (helium.schedule_object_upload_trace nv ni).findIdx
        helium.is_fence_block) ∧
    ((helium.schedule_object_upload_trace nv ni).findIdx
        helium.is_execute_lists <
      (helium.schedule_object_upload_trace nv ni).findIdx
        helium.is_fence_block) ∧
    ((helium.schedule_object_upload_trace nv ni).findIdx
        helium.is_fence_bump <
      (helium.schedule_object_upload_trace nv ni).findIdx
        helium.is_fence_block) ∧
    ((helium.schedule_object_upload_trace nv ni).filter
        helium.is_staging_access =
      ((helium.schedule_object_upload_trace nv ni).take
        ((helium.schedule_object_upload_trace nv ni).findIdx
          helium.is_fence_block)).filter helium.is_staging_access) ∧
    ((helium.schedule_object_upload_trace nv ni).drop
      ((helium.schedule_object_upload_trace nv ni).findIdx
        helium.is_fence_block + 1)
      = [helium.upload_event.destroy_staging,
         helium.upload_event.function_return]) := by
  have g1 : (cube.load_geometry_trace nv ni).findIdx
      helium.is_list_close = 12 := rfl
  have g2 : (cube.load_geometry_trace nv ni).findIdx
      helium.is_execute_lists = 13 := rfl
  have g3 : (cube.load_geometry_trace nv ni).findIdx
      helium.is_fence_bump = 14 := rfl
  have g4 : (cube.load_geometry_trace nv ni).findIdx
      helium.is_fence_block = 15 := rfl
  have s1 : (helium.schedule_object_upload_trace nv ni).findIdx
      helium.is_list_close = 12 := rfl
  have s2 : (helium.schedule_object_upload_trace nv ni).findIdx
      helium.is_execute_lists = 13 := rfl
  have s3 : (helium.schedule_object_upload_trace nv ni).findIdx
      helium.is_fence_bump = 14 := rfl
  have s4 : (helium.schedule_object_upload_trace nv ni).findIdx
      helium.is_fence_block = 16 := rfl
  refine ⟨?_, ?_, ?_, ?_, ?_, ?_, ?_, ?_, ?_, ?_⟩
  · omega
  · omega
  · omega
  · rw [g4]; rfl
  · rw [g4]; rfl
  · omega
  · omega
  · omega
  · rw [s4]; rfl
  · rw [s4]; rfl

/-- Claim C3 counterexample: at the cube's sizes (8 vertices, 36
indices), a staging-buffer operation — the buffer's destruction — does
occur in program order after the confirming `block()` call returns in
`load_geometry`, contradicting the claim's list of forbidden
operations (map, copy into, unmap, destroy). -/
theorem upload_staging_destroyed_after_block :
    ((cube.load_geometry_trace 8 36).drop
      ((cube.load_geometry_trace 8 36).findIdx helium.is_fence_block + 1)
      ).filter helium.is_staging_op =
      [helium.upload_event.destroy_staging] ∧
    helium.is_staging_op helium.upload_event.destroy_staging = true := by
  decide

/-- Claim C4 (amended): in `schedule_object_upload`
(src/unnamed/part_005) the command list records, after the two
buffer-to-buffer copies and before it is closed, exactly one barrier
submission holding the two transitions COPY_DEST to
VERTEX_AND_CONSTANT_BUFFER (vertex buffer) and COPY_DEST to INDEX_BUFFER
(index buffer); the converged `load_geometry` (src/unnamed/part_006)
records no transition barriers at all after its copies — the list is
closed directly after them. -/
theorem upload_barriers_after_copies (nv ni : Nat) :
    (helium.schedule_object_upload_trace nv ni).filter
      helium.is_record_barriers =
      [helium.upload_event.record_barriers
        [helium.transition_unchecked helium.vertex_buffer_id
          helium.resource_state.copy_dest
          helium.resource_state.vertex_and_constant_buffer,
         helium.transition_unchecked helium.index_buffer_id
          helium.resource_state.copy_dest
          helium.resource_state.index_buffer]] ∧
    ((helium.schedule_object_upload_trace nv ni).take
      ((helium.schedule_object_upload_trace nv ni).findIdx
        helium.is_record_barriers)).filter helium.is_record_copy =
      (helium.schedule_object_upload_trace nv ni).filter
        helium.is_record_copy ∧
    ((helium.schedule_object_upload_trace nv ni).filter
      helium.is_record_copy).length = 2 ∧
    (helium.schedule_object_upload_trace nv ni).findIdx
        helium.is_record_barriers <
      (helium.schedule_object_upload_trace nv ni).findIdx
        helium.is_list_close ∧
    (cube.load_geometry_trace nv ni).filter helium.is_record_barriers =
      [] := by
  have s5 : (helium.schedule_object_upload_trace nv ni).findIdx
      helium.is_record_barriers = 11 := rfl
  have s1 : (helium.schedule_object_upload_trace nv ni).findIdx
      helium.is_list_close = 12 := rfl
  exact ⟨rfl, rfl, rfl, by omega, rfl⟩

/-- Claim C4 counterexample: at the cube's sizes the staged upload of
part_006 (`load_geometry`, cited by the claim) records its two copies but
no transition barrier whatsoever before closing the list. -/
theorem load_geometry_records_no_barriers :
    (cube.load_geometry_trace 8 36).filter helium.is_record_barriers =
      [] ∧
    ((cube.load_geometry_trace 8 36).filter
      helium.is_record_copy).length = 2 ∧
    (cube.load_geometry_trace 8 36).findIdx helium.is_list_close <
      (cube.load_geometry_trace 8 36).length := by decide

/-- Claim C6: in every recorded render pass of `cube::record_commands`,
the back buffer is transitioned COMMON to RENDER_TARGET exactly once,
exactly one reversing RENDER_TARGET to COMMON transition is submitted
before the list is closed (it is the last recorded command, produced by
`reverse` of the stored entry barrier), and the declared state of the back
buffer at the close equals its COMMON state at the start of the pass. -/
theorem render_pass_barrier_pairing (n : Nat) :
    ∃ L : cube.recorded_list, cube.record_commands n = some L ∧
      L.closed = true ∧
      cube.transition_count cube.backbuffer_id helium.resource_state.common
        helium.resource_state.render_target L.commands = 1 ∧
      cube.transition_count cube.backbuffer_id
        helium.resource_state.render_target helium.resource_state.common
        L.commands = 1 ∧
      cube.declared_state cube.backbuffer_id helium.resource_state.common
        L.commands = helium.resource_state.common ∧
      L.commands.getLast? = some (cube.gfx_command.submit_barriers
        [⟨helium.barrier_type.transition_kind, cube.backbuffer_id,
          helium.resource_state.render_target,
          helium.resource_state.common⟩]) := by
  refine ⟨_, rfl, rfl, ?_, ?_, ?_, ?_⟩
  · rfl
  · rfl
  · rfl
  · rfl

/-- Loop invariant of the embedded render loop: at the start of iteration
`n` the fence counter is `n + 1`, the back-buffer index is `n % 2`, the
established completed-value lower bound is at least 1, and the tickets
remembered for the two frame-resource slots are bounded: the ticket of the
slot about to be reused is at most `max 1 n`, the other slot's at most
`n + 1`. -/
theorem run_invariant (n : Nat) (hn : n + 1 < helium.U64) :
    (cube.run n).fence_value = n + 1 ∧
    (cube.run n).back_index = n % 2 ∧
    1 ≤ (cube.run n).completed_lb ∧
    (∀ t, cube.ticket_of (cube.run n) n = some t → t ≤ max 1 n) ∧
    (∀ t, cube.ticket_of (cube.run n) (n + 1) = some t → t ≤ n + 1) := by
  induction n with
  | zero =>
    refine ⟨rfl, rfl, le_refl 1, ?_, ?_⟩
    · intro t ht
      simp [cube.ticket_of, cube.run, cube.init_state] at ht
      omega
    · intro t ht
      simp [cube.ticket_of, cube.run, cube.init_state] at ht
  | succ m ih =>
    have hm : m + 1 < helium.U64 := by omega
    obtain ⟨h1, h2, h3, h4, h5⟩ := ih hm
    have hth : helium.block_threshold (m + 1) 1 = m := by
      have h := block_threshold_of_le (m + 1) 1 (by omega) hm
      simpa using h
    have hmod : (m + 1 + 1) % helium.U64 = m + 2 := by
      apply Nat.mod_eq_of_lt
      omega
    have hstep : cube.run (m + 1) = cube.render_step (cube.run m) := rfl
    refine ⟨?_, ?_, ?_, ?_, ?_⟩
    · rw [hstep]
      simp [cube.render_step, h1, hmod]
    · rw [hstep]
      simp only [cube.render_step, h2]
      omega
    · rw [hstep]
      simp only [cube.render_step]
      exact le_trans h3 (le_max_left _ _)
    · intro t ht
      rw [hstep] at ht
      rcases Nat.mod_two_eq_zero_or_one m with hp | hp
      · have e1 : (m + 1) % 2 = 1 := by omega
        have hb : (cube.run m).back_index % 2 = 0 := by rw [h2, hp]
        have hv : cube.ticket_of (cube.render_step (cube.run m)) (m + 1)
            = (cube.run m).ticket1 := by
          simp [cube.ticket_of, cube.render_step, e1, hb]
        rw [hv] at ht
        have h5' := h5 t (by simp [cube.ticket_of, e1, ht])
        exact le_trans h5' (le_max_right _ _)
      · have e1 : (m + 1) % 2 = 0 := by omega
        have hb : (cube.run m).back_index % 2 = 1 := by rw [h2, hp]
        have hv : cube.ticket_of (cube.render_step (cube.run m)) (m + 1)
            = (cube.run m).ticket0 := by
          simp [cube.ticket_of, cube.render_step, e1, hb]
        rw [hv] at ht
        have h5' := h5 t (by simp [cube.ticket_of, e1, ht])
        exact le_trans h5' (le_max_right _ _)
    · intro t ht
      rw [hstep] at ht
      rcases Nat.mod_two_eq_zero_or_one m with hp | hp
      · have e2 : (m + 1 + 1) % 2 = 0 := by omega
        have hb : (cube.run m).back_index % 2 = 0 := by rw [h2, hp]
        have hv : cube.ticket_of (cube.render_step (cube.run m))
            (m + 1 + 1) = some (m + 2) := by
          simp [cube.ticket_of, cube.render_step, e2, hb, h1, hmod]
        rw [hv] at ht
        have hti := Option.some.inj ht
        omega
      · have e2 : (m + 1 + 1) % 2 = 1 := by omega
        have hb : (cube.run m).back_index % 2 = 1 := by rw [h2, hp]
        have hv : cube.ticket_of (cube.render_step (cube.run m))
            (m + 1 + 1) = some (m + 2) := by
          simp [cube.ticket_of, cube.render_step, e2, hb, h1, hmod]
        rw [hv] at ht
        have hti := Option.some.inj ht
        omega

/-- Claim C1: in every iteration of the embedded render loop (N = 2 swap
images), the fence-wait event of `render()` strictly precedes the
allocator-reset event of the same iteration; and at the moment the
allocator of the current frame slot is reset, the lower bound on the
GPU-completed fence value in force — established by this iteration's
`block(1)` together with the upload's earlier full wait — is at least the
ticket of the previous submission recorded through that same allocator,
so that submission has provably retired. -/
theorem render_loop_reset_after_confirmed_retirement (n t : Nat)
    (hn : n + 1 < helium.U64)
    (ht : cube.slot_ticket (cube.run n) = some t) :
    t ≤ cube.confirmed_lb (cube.run n) ∧
    cube.render_iteration_events.findIdx
      (fun e => e == cube.render_event.fence_block_lag_one) <
    cube.render_iteration_events.findIdx
      (fun e => e == cube.render_event.allocator_reset) := by
  obtain ⟨h1, h2, h3, h4, h5⟩ := run_invariant n hn
  refine ⟨?_, by decide⟩
  unfold cube.slot_ticket at ht
  rw [h2] at ht
  have hsame : cube.ticket_of (cube.run n) (n % 2) =
      cube.ticket_of (cube.run n) n := by
    unfold cube.ticket_of
    have hmm : n % 2 % 2 = n % 2 := by omega
    rw [hmm]
  rw [hsame] at ht
  have h6 := h4 t ht
  unfold cube.confirmed_lb
  rw [h1]
  have hth : helium.block_threshold (n + 1) 1 = n := by
    have h := block_threshold_of_le (n + 1) 1 (by omega) hn
    simpa using h
  rw [hth]
  exact le_trans h6 (max_le_max h3 (le_refl n))

/-- Claim C1 witness: at iteration 2 the slot about to be reused (slot 0)
carries ticket 2, and the bound in force at the reset is exactly 2. -/
theorem render_loop_reset_after_confirmed_retirement_witness :
    2 + 1 < helium.U64 ∧ cube.slot_ticket (cube.run 2) = some 2 ∧
    (2 ≤ cube.confirmed_lb (cube.run 2) ∧
     cube.render_iteration_events.findIdx
       (fun e => e == cube.render_event.fence_block_lag_one) <
     cube.render_iteration_events.findIdx
       (fun e => e == cube.render_event.allocator_reset)) :=
  have h3 : 2 + 1 < helium.U64 := by rw [U64_eq]; omega
  have ht : cube.slot_ticket (cube.run 2) = some 2 := by decide
  ⟨h3, ht, render_loop_reset_after_confirmed_retirement 2 2 h3 ht⟩
